import Mathlib

/-!
Shallow embedding of `terratools/plot.py`.

The module has two entry points, `layer_grid` and `spectral_heterogeneity`.
External numeric collaborators are modelled as follows:

* coordinates and values are exact rationals (`ℚ`) in place of IEEE floats;
* `np.arange(start, stop, step)` is `arange`: the values `start + k * step`
  for `k < ⌈(stop - start) / step⌉₊` (half-open range);
* `scipy.interpolate.griddata(..., method="nearest")` is `nearestGrid`:
  each grid point takes the value of the sample minimising squared Euclidean
  distance in (lon, lat), first minimiser kept on ties;
* `scipy.stats.binned_statistic_2d(lon, lat, values, bins=[xedges, yedges])`
  with its default statistic `"mean"` is `cellMean` over `binIndex` bins:
  the two edge lists give `len - 1` bins per dimension, each bin is
  half-open `[e i, e (i+1))` except the last which also includes its right
  edge, and an empty bin's `NaN` is modelled as `none`;
* matplotlib calls (figure creation, imshow, colorbar, coastlines) and the
  stderr write are recorded as an `Event` trace in program order;
* raised exceptions (`ValueError`, the captured cartopy `ImportError`) are
  `Except.error` values of type `PlotError`.
-/

/-- Module-level state of `plot.py`: whether `import cartopy.crs` succeeded
at load time, and the captured exception text when it did not
(`_CARTOPY_INSTALLED`, `_CARTOPY_NOT_INSTALLED_EXCEPTION`). -/
structure ModuleState where
  cartopyInstalled : Bool
  notInstalledExc : String
deriving DecidableEq

/-- Exceptions escaping the two entry points: the re-raised cartopy import
error, or a `ValueError` from parameter validation / numpy reduction. -/
inductive PlotError where
  | missingDependency (exc : String)
  | validation (msg : String)
deriving DecidableEq

/-- Observable side effects of `layer_grid`, in program order: the stderr
diagnostic, `plt.subplots`, the `np.arange`/`np.meshgrid` grid-coordinate
step, the interpolation/binning step, and the rendering calls. -/
inductive Event where
  | stderrWrite (msg : String)
  | createFigure
  | computeGridCoords
  | computeGridValues
  | imshow
  | colorbar
  | coastlines
deriving DecidableEq

/-- `np.arange(start, stop, step)` for a positive step: `start + k * step`
for `k = 0, 1, ...` while the value is below `stop`. -/
def arange (start stop step : ℚ) : List ℚ :=
  (List.range ⌈(stop - start) / step⌉₊).map (fun k : ℕ => start + (k : ℚ) * step)

/-- Pair up the three parallel argument sequences `lon`, `lat`, `values`. -/
def zip3 (lon lat values : List ℚ) : List (ℚ × ℚ × ℚ) :=
  lon.zip (lat.zip values)

/-- Squared Euclidean distance in (lon, lat) space. -/
def sqDist (p q : ℚ × ℚ) : ℚ :=
  (p.1 - q.1) ^ 2 + (p.2 - q.2) ^ 2

/-- Nearest-neighbour lookup of `scipy.interpolate.griddata` with
`method="nearest"`: the value of the sample closest to `p`, the earliest
such sample on ties; `none` when there are no samples. -/
def nearestValue (samples : List (ℚ × ℚ × ℚ)) (p : ℚ × ℚ) : Option ℚ :=
  (samples.foldl
    (fun best s =>
      match best with
      | none => some (sqDist p (s.1, s.2.1), s.2.2)
      | some (d, v) =>
          if sqDist p (s.1, s.2.1) < d then some (sqDist p (s.1, s.2.1), s.2.2)
          else some (d, v))
    none).map (fun b => b.2)

/-- The `method="nearest"` grid before the vertical flip: row `j` ranges
over `grid_lats`, column `i` over `grid_lons`, matching
`np.meshgrid(grid_lons, grid_lats)`. -/
def nearestGrid (samples : List (ℚ × ℚ × ℚ)) (glons glats : List ℚ) :
    List (List (Option ℚ)) :=
  glats.map (fun la => glons.map (fun lo => nearestValue samples (lo, la)))

/-- Bin index of `v` for the edge list `edges`, as `np.histogramdd` /
`binned_statistic_2d` assign it: bin `i` is `[edges i, edges (i+1))`, and
the last bin also includes its right edge; `none` when `v` lies outside
every bin. -/
def binIndex (edges : List ℚ) (v : ℚ) : Option Nat :=
  let nbins := edges.length - 1
  (List.range nbins).find? (fun i =>
    match edges[i]?, edges[i + 1]? with
    | some lo, some hi =>
        decide (lo ≤ v) &&
          (decide (v < hi) || (decide (i = nbins - 1) && decide (v ≤ hi)))
    | _, _ => false)

/-- The samples whose (lon, lat) coordinates fall in bin `(i, j)` of the
2-D histogram over `xedges` × `yedges`. -/
def binSamples (samples : List (ℚ × ℚ × ℚ)) (xedges yedges : List ℚ)
    (i j : Nat) : List (ℚ × ℚ × ℚ) :=
  samples.filter (fun s =>
    binIndex xedges s.1 == some i && binIndex yedges s.2.1 == some j)

/-- The `"mean"` statistic of one bin: arithmetic mean of the values of the
samples in the bin, `none` (numpy's `NaN`) when the bin is empty. -/
def cellMean (samples : List (ℚ × ℚ × ℚ)) (xedges yedges : List ℚ)
    (i j : Nat) : Option ℚ :=
  let inBin := binSamples samples xedges yedges i j
  if inBin.isEmpty then none
  else some ((inBin.map (fun s => s.2.2)).sum / (inBin.length : ℚ))

/-- The `method="mean"` grid after `np.transpose` but before the vertical
flip: `binned_statistic_2d` returns shape
`(xedges.length - 1, yedges.length - 1)` and the transpose swaps the axes,
so row `j` ranges over latitude bins and column `i` over longitude bins. -/
def meanGridT (samples : List (ℚ × ℚ × ℚ)) (xedges yedges : List ℚ) :
    List (List (Option ℚ)) :=
  (List.range (yedges.length - 1)).map (fun j =>
    (List.range (xedges.length - 1)).map (fun i =>
      cellMean samples xedges yedges i j))

/-- Body of `layer_grid` from the grid-coordinate step on, after the extent
has been destructured and `delta` resolved to a positive value. -/
def layerGridCore (samples : List (ℚ × ℚ × ℚ))
    (minlon maxlon minlat maxlat delta : ℚ) (method : String)
    (coastlines : Bool) :
    List Event × Except PlotError (List (List (Option ℚ))) :=
  let grid_lons := arange minlon maxlon delta
  let grid_lats := arange minlat maxlat delta
  if method = "nearest" then
    ([Event.createFigure, Event.computeGridCoords, Event.computeGridValues,
      Event.imshow, Event.colorbar] ++
        (if coastlines then [Event.coastlines] else []),
     Except.ok (nearestGrid samples grid_lons grid_lats).reverse)
  else if method = "mean" then
    ([Event.createFigure, Event.computeGridCoords, Event.computeGridValues,
      Event.imshow, Event.colorbar] ++
        (if coastlines then [Event.coastlines] else []),
     Except.ok (meanGridT samples grid_lons grid_lats).reverse)
  else
    ([Event.createFigure, Event.computeGridCoords],
     Except.error (PlotError.validation ("unsupported method '" ++ method ++ "'")))

/-- `layer_grid` of `plot.py`: returns the trace of side effects up to the
point where the call returned or raised, together with either the raised
exception or the flipped grid that is handed to `imshow`. -/
def layer_grid (st : ModuleState) (lon lat : List ℚ) (_radius : ℚ)
    (values : List ℚ) (delta : Option ℚ) (extent : List ℚ)
    (_label : Option String) (method : String) (coastlines : Bool) :
    List Event × Except PlotError (List (List (Option ℚ))) :=
  if st.cartopyInstalled = false then
    ([Event.stderrWrite "layer_grid require cartopy to be installed"],
     Except.error (PlotError.missingDependency st.notInstalledExc))
  else
    match extent with
    | [minlon, maxlon, minlat, maxlat] =>
        if maxlon ≤ minlon then
          ([Event.createFigure],
           Except.error (PlotError.validation
             ("maximum longitude must be more than minimum; have" ++
               s!"min = {minlon} and max = {maxlon}")))
        else if maxlat ≤ minlat then
          ([Event.createFigure],
           Except.error (PlotError.validation
             ("maximum latitude must be more than minimum; have" ++
               s!"min = {minlat} and max = {maxlat}")))
        else
          match delta with
          | none =>
              layerGridCore (zip3 lon lat values) minlon maxlon minlat maxlat
                (max (maxlon - minlon) (maxlat - minlat) / 200) method coastlines
          | some d =>
              if d ≤ 0 then
                ([Event.createFigure],
                 Except.error (PlotError.validation "delta must be more than 0"))
              else
                layerGridCore (zip3 lon lat values) minlon maxlon minlat maxlat
                  d method coastlines
    | _ =>
        ([Event.createFigure],
         Except.error (PlotError.validation "extent must contain four values"))

/-- Python slicing `xs[a:b]` for non-negative bounds. -/
def pySlice (a b : Nat) (xs : List α) : List α :=
  (xs.drop a).take (b - a)

/-- The slice `indat[lyrmin:lyrmax, lmin:lmax + 1]` taken by
`spectral_heterogeneity` before the logarithm. -/
def sliceSpectrum (indat : List (List ℚ)) (lyrmin lyrmax lmin lmax : Nat) :
    List (List ℚ) :=
  (pySlice lyrmin lyrmax indat).map (fun row => pySlice lmin (lmax + 1) row)

/-- `np.linspace(a, b, n)`. -/
def linspace (a b : ℚ) (n : Nat) : List ℚ :=
  (List.range n).map (fun i => a + i * (b - a) / ((n : ℚ) - 1))

/-- Observable output of a successful `spectral_heterogeneity` call: the
logged slice handed to `contourf`, the sliced depth axis, the contour
levels, and the path written by `savefig` when `saveplot` is set. -/
structure SpectralOut where
  logged : List (List ℚ)
  deps : List ℚ
  levels : List ℚ
  savedFile : Option String
deriving DecidableEq

/-- `spectral_heterogeneity` of `plot.py`.  `log` stands for the external
elementwise `np.log`.  `np.min` / `np.max` on the empty logged array raise
a `ValueError`, modelled as the `[]` branch; on a non-empty array they fold
`min` / `max` over its elements. -/
def spectral_heterogeneity (_st : ModuleState) (log : ℚ → ℚ)
    (indat : List (List ℚ)) (title : Option String) (depths : List ℚ)
    (lmin lmax : Nat) (saveplot : Bool) (savepath : Option String)
    (lyrmin lyrmax : Nat) : Except PlotError SpectralOut :=
  match ((sliceSpectrum indat lyrmin lyrmax lmin lmax).map (List.map log)).flatten with
  | [] =>
      Except.error (PlotError.validation
        "zero-size array to reduction operation minimum which has no identity")
  | x :: xs =>
      let plotmin := xs.foldl min x
      let plotmax := xs.foldl max x
      Except.ok
        { logged := (sliceSpectrum indat lyrmin lyrmax lmin lmax).map (List.map log)
          deps := pySlice lyrmin lyrmax depths
          levels := linspace plotmin plotmax 10
          savedFile :=
            if saveplot then
              some ((savepath.getD ".") ++ "/powers_" ++ (title.getD "") ++ ".pdf")
            else none }

/-- Shape of a grid as (rows, columns of the first row). -/
def gridShape (g : List (List α)) : Nat × Nat :=
  (g.length, (g.headD []).length)

/-- Shape of the grid returned by a `layer_grid` call, `none` on a raise. -/
def resultShape
    (r : List Event × Except PlotError (List (List (Option ℚ)))) :
    Option (Nat × Nat) :=
  match r.2 with
  | Except.ok g => some (gridShape g)
  | Except.error _ => none

/-- A module state in which the cartopy import succeeded. -/
def stOk : ModuleState := ⟨true, ""⟩

instance {ε α : Type} [DecidableEq ε] [DecidableEq α] :
    DecidableEq (Except ε α) := fun x y =>
  match x, y with
  | Except.ok a, Except.ok b =>
      if h : a = b then isTrue (by rw [h]) else isFalse (by simp [h])
  | Except.error a, Except.error b =>
      if h : a = b then isTrue (by rw [h]) else isFalse (by simp [h])
  | Except.ok _, Except.error _ => isFalse (fun h => Except.noConfusion h)
  | Except.error _, Except.ok _ => isFalse (fun h => Except.noConfusion h)

lemma arange_length (start stop step : ℚ) :
    (arange start stop step).length = ⌈(stop - start) / step⌉₊ := by
  simp only [arange, List.length_map, List.length_range]

lemma arange_ne_nil {start stop step : ℚ} (h1 : start < stop) (h2 : 0 < step) :
    arange start stop step ≠ [] := by
  have hpos : 0 < ⌈(stop - start) / step⌉₊ :=
    Nat.ceil_pos.mpr (div_pos (sub_pos.mpr h1) h2)
  intro hnil
  have hlen := congrArg List.length hnil
  rw [arange_length, List.length_nil] at hlen
  omega

lemma gridShape_reverse_of_rect {α : Type} (rows : List (List α)) (m : Nat)
    (hne : rows ≠ []) (hall : ∀ r ∈ rows, r.length = m) :
    gridShape rows.reverse = (rows.length, m) := by
  cases hrev : rows.reverse with
  | nil => exact absurd (by simpa using hrev) hne
  | cons x t =>
      have hx : x ∈ rows := List.mem_reverse.mp (hrev ▸ List.mem_cons_self x t)
      have hlen : rows.reverse.length = rows.length := List.length_reverse rows
      rw [hrev] at hlen
      simp only [gridShape, hrev, List.headD_cons]
      rw [hlen, hall x hx]

lemma nearestGrid_shape (samples : List (ℚ × ℚ × ℚ)) (glons glats : List ℚ)
    (h : glats ≠ []) :
    gridShape (nearestGrid samples glons glats).reverse
      = (glats.length, glons.length) := by
  have h1 : glats.map (fun la => glons.map (fun lo => nearestValue samples (lo, la))) ≠ [] := by
    simpa using h
  have h2 : ∀ r ∈ glats.map (fun la => glons.map (fun lo => nearestValue samples (lo, la))),
      r.length = glons.length := by
    intro r hr
    rcases List.mem_map.mp hr with ⟨la, _, rfl⟩
    simp
  have h3 := gridShape_reverse_of_rect _ _ h1 h2
  simpa [nearestGrid] using h3

lemma meanGridT_shape (samples : List (ℚ × ℚ × ℚ)) (xedges yedges : List ℚ)
    (h : yedges.length - 1 ≠ 0) :
    gridShape (meanGridT samples xedges yedges).reverse
      = (yedges.length - 1, xedges.length - 1) := by
  have h1 : (List.range (yedges.length - 1)).map
      (fun j => (List.range (xedges.length - 1)).map
        (fun i => cellMean samples xedges yedges i j)) ≠ [] := by
    simp [List.range_eq_nil, h]
  have h2 : ∀ r ∈ (List.range (yedges.length - 1)).map
      (fun j => (List.range (xedges.length - 1)).map
        (fun i => cellMean samples xedges yedges i j)),
      r.length = xedges.length - 1 := by
    intro r hr
    rcases List.mem_map.mp hr with ⟨j, _, rfl⟩
    simp
  have h3 := gridShape_reverse_of_rect _ _ h1 h2
  simpa [meanGridT] using h3

section ConcreteEvaluation

attribute [local semireducible] Rat.add Rat.mul Rat.sub Rat.inv

/-- C1 counterexample: the claim's shape formula fails for `method="mean"`.
With `extent=(0, 2, 0, 2)` and `delta=1` both `np.arange` calls produce two
grid lines, so the claimed shape is `(⌈2/1⌉, ⌈2/1⌉) = (2, 2)`; but
`binned_statistic_2d` treats the two grid lines as bin edges, yielding one
bin per axis, and the returned grid has shape `(1, 1)`. -/
theorem C1_mean_shape_cex :
    resultShape (layer_grid stOk [0] [0] 0 [1] (some 1) [0, 2, 0, 2] none "mean" true)
      = some (1, 1)
    ∧ ⌈(((2 : ℚ) - 0) / 1)⌉₊ = 2 := by
  exact ⟨by decide, by decide⟩

end ConcreteEvaluation

/-- C1 (amended): for a valid extent `[a, b, c, d]` and `delta > 0`, the
grid produced by `layer_grid` with `method="nearest"` has shape
`(⌈(d - c) / delta⌉, ⌈(b - a) / delta⌉)`; with `method="mean"` it instead
has shape `(⌈(d - c) / delta⌉ - 1, ⌈(b - a) / delta⌉ - 1)`, one less per
axis, because the half-open grid lines are used as bin edges. -/
theorem C1_grid_shape (st : ModuleState) (lon lat values : List ℚ)
    (radius : ℚ) (a b c d δ : ℚ) (lbl : Option String) (cs : Bool)
    (hst : st.cartopyInstalled = true)
    (hab : a < b) (hcd : c < d) (hδ : 0 < δ)
    (hs : zip3 lon lat values ≠ []) :
    resultShape (layer_grid st lon lat radius values (some δ) [a, b, c, d] lbl "nearest" cs)
      = some (⌈(d - c) / δ⌉₊, ⌈(b - a) / δ⌉₊)
    ∧ (1 < ⌈(d - c) / δ⌉₊ →
        resultShape (layer_grid st lon lat radius values (some δ) [a, b, c, d] lbl "mean" cs)
          = some (⌈(d - c) / δ⌉₊ - 1, ⌈(b - a) / δ⌉₊ - 1)) := by
  have hba := not_le.mpr hab
  have hdc := not_le.mpr hcd
  have hδ' := not_le.mpr hδ
  have hlat : arange c d δ ≠ [] := arange_ne_nil hcd hδ
  constructor
  · have hsh := nearestGrid_shape (zip3 lon lat values) (arange a b δ) (arange c d δ) hlat
    rw [arange_length, arange_length] at hsh
    simp [layer_grid, layerGridCore, resultShape, hst, hba, hdc, hδ', hsh]
  · intro hgt
    have hne : (arange c d δ).length - 1 ≠ 0 := by
      rw [arange_length]
      omega
    have hsh := meanGridT_shape (zip3 lon lat values) (arange a b δ) (arange c d δ) hne
    rw [arange_length, arange_length] at hsh
    simp [layer_grid, layerGridCore, resultShape, hst, hba, hdc, hδ', hsh]

/-- C1 witness: a concrete valid call of each hypothesis, evaluated. -/
theorem C1_grid_shape_witness :
    resultShape (layer_grid stOk [0] [0] 3482 [1] (some 90) [-180, 180, -90, 90] none "nearest" true)
      = some (⌈(((90 : ℚ)) - (-90)) / 90⌉₊, ⌈(((180 : ℚ)) - (-180)) / 90⌉₊) :=
  (C1_grid_shape stOk [0] [0] [1] 3482 (-180) 180 (-90) 90 90 none true rfl
    (by norm_num) (by norm_num) (by norm_num) (by decide)).1

section ConcreteEvaluationTwo

attribute [local semireducible] Rat.add Rat.mul Rat.sub Rat.inv

/-- C2 counterexample: with `extent=(-180, 180, -90, 90)` and `delta=90`
the latitude grid lines are `[-90, 0]`, not `[-90, 0, 90]` (90 is excluded
by the half-open range), and the output grid has shape `(2, 4)`, not
`(3, 4)`. -/
theorem C2_example_cex :
    arange (-90) 90 90 = [-90, 0]
    ∧ arange (-90) 90 90 ≠ [-90, 0, 90]
    ∧ resultShape (layer_grid stOk [0] [0] 3482 [1] (some 90) [-180, 180, -90, 90] none "nearest" true)
        ≠ some (3, 4) := by
  exact ⟨by decide, by decide, by decide⟩

end ConcreteEvaluationTwo

/-- C2 (amended): for `extent=(-180, 180, -90, 90)` and `delta=90`,
`layer_grid` generates grid longitude lines `[-180, -90, 0, 90]` and grid
latitude lines `[-90, 0]`, and the output grid (default
`method="nearest"`) has shape `(2, 4)`. -/
theorem C2_example (st : ModuleState) (lon lat values : List ℚ)
    (radius : ℚ) (lbl : Option String) (cs : Bool)
    (hst : st.cartopyInstalled = true) (hs : zip3 lon lat values ≠ []) :
    arange (-180) 180 90 = [-180, -90, 0, 90]
    ∧ arange (-90) 90 90 = [-90, 0]
    ∧ resultShape (layer_grid st lon lat radius values (some 90) [-180, 180, -90, 90] lbl "nearest" cs)
        = some (2, 4) := by
  refine ⟨?lons, ?lats, ?shape⟩
  case lons =>
    have mul0 : ((-180 : ℚ)) + (0 : ℕ) * 90 = -180 := by norm_num
    have := arange_length (-180) 180 90
    simp only [arange]
    norm_num [List.range_succ, show ⌈(((180 : ℚ)) - (-180)) / 90⌉₊ = 4 by
      rw [show (((180 : ℚ)) - (-180)) / 90 = 4 by norm_num]
      exact Nat.ceil_ofNat 4]
  case lats =>
    simp only [arange]
    norm_num [List.range_succ, show ⌈(((90 : ℚ)) - (-90)) / 90⌉₊ = 2 by
      rw [show (((90 : ℚ)) - (-90)) / 90 = 2 by norm_num]
      exact Nat.ceil_ofNat 2]
  case shape =>
    have hba : ¬ ((180 : ℚ) ≤ -180) := by norm_num
    have hdc : ¬ ((90 : ℚ) ≤ -90) := by norm_num
    have hδ' : ¬ ((90 : ℚ) ≤ 0) := by norm_num
    have hlat : arange (-90) 90 90 ≠ [] :=
      arange_ne_nil (by norm_num) (by norm_num)
    have hsh := nearestGrid_shape (zip3 lon lat values) (arange (-180) 180 90)
      (arange (-90) 90 90) hlat
    rw [arange_length, arange_length] at hsh
    rw [show ⌈(((90 : ℚ)) - (-90)) / 90⌉₊ = 2 by
          rw [show (((90 : ℚ)) - (-90)) / 90 = 2 by norm_num]
          exact Nat.ceil_ofNat 2,
        show ⌈(((180 : ℚ)) - (-180)) / 90⌉₊ = 4 by
          rw [show (((180 : ℚ)) - (-180)) / 90 = 4 by norm_num]
          exact Nat.ceil_ofNat 4] at hsh
    simp [layer_grid, layerGridCore, resultShape, hst, hba, hdc, hδ', hsh]

/-- C2 witness: the amended statement evaluated at a concrete sample set. -/
theorem C2_example_witness :
    resultShape (layer_grid stOk [0] [0] 3482 [1] (some 90) [-180, 180, -90, 90] none "nearest" true)
      = some (2, 4) :=
  (C2_example stOk [0] [0] [1] 3482 none true rfl (by decide)).2.2

section ConcreteEvaluationThree

attribute [local semireducible] Rat.add Rat.mul Rat.sub Rat.inv

/-- C3 counterexample: calling `layer_grid` with a three-element extent
raises the ValidationError, yet the figure/axis pair has already been
created by `plt.subplots` before the extent check runs, so the trace of
the failed call contains the figure-creation effect. -/
theorem C3_atomicity_cex :
    layer_grid stOk [] [] 0 [] none [0, 1, 0] none "nearest" true
      = ([Event.createFigure],
         Except.error (PlotError.validation "extent must contain four values"))
    ∧ Event.createFigure ∈ (layer_grid stOk [] [] 0 [] none [0, 1, 0] none "nearest" true).1 := by
  exact ⟨by decide, by decide⟩

end ConcreteEvaluationThree

/-- C3 (amended): whenever `layer_grid` raises a ValidationError, no grid
values have been computed and nothing has been rendered before the raise,
but the figure/axis pair has already been created; for the
unsupported-method error the grid coordinates have also been computed
before the raise. -/
theorem C3_validation_order (st : ModuleState) (lon lat : List ℚ)
    (radius : ℚ) (values : List ℚ) (delta : Option ℚ) (extent : List ℚ)
    (lbl : Option String) (method : String) (cs : Bool) (tr : List Event)
    (msg : String)
    (h : layer_grid st lon lat radius values delta extent lbl method cs
          = (tr, Except.error (PlotError.validation msg))) :
    (tr = [Event.createFigure] ∨ tr = [Event.createFigure, Event.computeGridCoords])
    ∧ Event.createFigure ∈ tr
    ∧ Event.computeGridValues ∉ tr
    ∧ Event.imshow ∉ tr := by
  have main : tr = [Event.createFigure] ∨ tr = [Event.createFigure, Event.computeGridCoords] := by
    by_cases hc : st.cartopyInstalled = false
    · simp [layer_grid, hc] at h
    · rcases delta with _ | d <;>
        rcases extent with _ | ⟨e1, _ | ⟨e2, _ | ⟨e3, _ | ⟨e4, _ | ⟨e5, rest⟩⟩⟩⟩⟩ <;>
        simp only [layer_grid, layerGridCore, hc, if_false] at h <;>
        first
          | (split_ifs at h <;>
              first
                | (exact Or.inl (congrArg Prod.fst h).symm)
                | (exact Or.inr (congrArg Prod.fst h).symm)
                | (exact absurd (congrArg Prod.snd h) (by simp)))
          | (exact Or.inl (congrArg Prod.fst h).symm)
  refine ⟨main, ?_, ?_, ?_⟩ <;> rcases main with rfl | rfl <;> decide

/-- C3 witness: the amended statement at a concrete failing call. -/
theorem C3_validation_order_witness :
    (([Event.createFigure] : List Event) = [Event.createFigure]
      ∨ ([Event.createFigure] : List Event) = [Event.createFigure, Event.computeGridCoords])
    ∧ Event.createFigure ∈ ([Event.createFigure] : List Event)
    ∧ Event.computeGridValues ∉ ([Event.createFigure] : List Event)
    ∧ Event.imshow ∉ ([Event.createFigure] : List Event) :=
  C3_validation_order stOk [] [] 0 [] none [0, 1, 0] none "nearest" true
    [Event.createFigure] "extent must contain four values" (by decide)

/-- C4: with `method="mean"`, a cell whose bin holds exactly one sample
equals that sample's value; a cell whose bin holds N ≥ 1 samples equals
the arithmetic mean of their values; a cell whose bin is empty is the
missing marker (`none`, modelling the non-finite `NaN`); and the grid
returned by `layer_grid` is exactly the flipped transpose of these cell
means over the `np.arange` edge lists. -/
theorem C4_mean_binning :
    (∀ (samples : List (ℚ × ℚ × ℚ)) (xedges yedges : List ℚ) (i j : Nat),
        binSamples samples xedges yedges i j = [] →
        cellMean samples xedges yedges i j = none)
    ∧ (∀ (samples : List (ℚ × ℚ × ℚ)) (xedges yedges : List ℚ) (i j : Nat)
        (s : ℚ × ℚ × ℚ), binSamples samples xedges yedges i j = [s] →
        cellMean samples xedges yedges i j = some s.2.2)
    ∧ (∀ (samples : List (ℚ × ℚ × ℚ)) (xedges yedges : List ℚ) (i j : Nat),
        binSamples samples xedges yedges i j ≠ [] →
        cellMean samples xedges yedges i j
          = some (((binSamples samples xedges yedges i j).map (fun s => s.2.2)).sum
              / ((binSamples samples xedges yedges i j).length : ℚ)))
    ∧ (∀ (st : ModuleState) (lon lat values : List ℚ) (radius : ℚ)
        (a b c d δ : ℚ) (lbl : Option String) (cs : Bool),
        st.cartopyInstalled = true → a < b → c < d → 0 < δ →
        (layer_grid st lon lat radius values (some δ) [a, b, c, d] lbl "mean" cs).2
          = Except.ok ((meanGridT (zip3 lon lat values) (arange a b δ) (arange c d δ)).reverse)) := by
  refine ⟨?empty, ?single, ?mean, ?grid⟩
  case empty =>
    intro samples xedges yedges i j h
    simp [cellMean, h]
  case single =>
    intro samples xedges yedges i j s h
    simp [cellMean, h]
  case mean =>
    intro samples xedges yedges i j h
    rw [cellMean, if_neg]
    simpa using h
  case grid =>
    intro st lon lat values radius a b c d δ lbl cs hst hab hcd hδ
    simp [layer_grid, layerGridCore, hst, not_le.mpr hab, not_le.mpr hcd, not_le.mpr hδ]

section ConcreteEvaluationFour

attribute [local semireducible] Rat.add Rat.mul Rat.sub Rat.inv

/-- C4 witness: a bin holding exactly the sample (1/2, 1/2, 7) yields 7. -/
theorem C4_mean_binning_witness :
    cellMean [((1 : ℚ)/2, (1 : ℚ)/2, (7 : ℚ))] [0, 1] [0, 1] 0 0 = some 7 :=
  C4_mean_binning.2.1 [((1 : ℚ)/2, (1 : ℚ)/2, (7 : ℚ))] [0, 1] [0, 1] 0 0
    ((1 : ℚ)/2, (1 : ℚ)/2, (7 : ℚ)) (by decide)

end ConcreteEvaluationFour

/-- C5: `spectral_heterogeneity` slices rows `[lyrmin, lyrmax)` and columns
`[lmin, lmax]` (inclusive upper degree) of the spectrum before logging:
element `(i, j)` of the slice is element `(lyrmin + i, lmin + j)` of the
input, and a (10, 21) input with `lmin=2, lmax=10, lyrmin=1, lyrmax=5`
yields a (4, 9) sub-array. -/
theorem C5_spectrum_slicing :
    (∀ (indat : List (List ℚ)) (lyrmin lyrmax lmin lmax i : Nat),
        i < lyrmax - lyrmin →
        (sliceSpectrum indat lyrmin lyrmax lmin lmax)[i]?
          = (indat[lyrmin + i]?).map (fun row => pySlice lmin (lmax + 1) row))
    ∧ (∀ (row : List ℚ) (lmin lmax j : Nat), j < lmax + 1 - lmin →
        (pySlice lmin (lmax + 1) row)[j]? = row[lmin + j]?)
    ∧ (∀ indat : List (List ℚ), indat.length = 10 →
        (∀ r ∈ indat, r.length = 21) →
        (sliceSpectrum indat 1 5 2 10).length = 4
        ∧ ∀ r ∈ sliceSpectrum indat 1 5 2 10, r.length = 9) := by
  refine ⟨?rows, ?cols, ?inst⟩
  case rows =>
    intro indat lyrmin lyrmax lmin lmax i hi
    simp [sliceSpectrum, pySlice, List.getElem?_take, hi, List.getElem?_drop]
  case cols =>
    intro row lmin lmax j hj
    simp [pySlice, List.getElem?_take, hj, List.getElem?_drop]
  case inst =>
    intro indat hlen hrow
    constructor
    · simp [sliceSpectrum, pySlice, hlen]
    · intro r hr
      simp only [sliceSpectrum, List.mem_map] at hr
      rcases hr with ⟨row, hrow', rfl⟩
      have hmem : row ∈ indat :=
        List.mem_of_mem_drop (List.mem_of_mem_take hrow')
      simp [pySlice, hrow row hmem]

/-- C5 witness: the shape instance at a concrete 10 × 21 array. -/
theorem C5_spectrum_slicing_witness :
    (sliceSpectrum (List.replicate 10 (List.replicate 21 (0 : ℚ))) 1 5 2 10).length = 4 :=
  (C5_spectrum_slicing.2.2 (List.replicate 10 (List.replicate 21 (0 : ℚ)))
    (by simp) (by intro r hr; rw [List.eq_of_mem_replicate hr]; simp)).1

/-- C6: when the cartopy import failed at load time, every `layer_grid`
call first writes the diagnostic to stderr and then re-raises the
captured import error; `spectral_heterogeneity` never consults the module
state, so its result is identical under any module state. -/
theorem C6_optional_dependency :
    (∀ (st : ModuleState) (lon lat : List ℚ) (radius : ℚ) (values : List ℚ)
        (delta : Option ℚ) (extent : List ℚ) (lbl : Option String)
        (method : String) (cs : Bool),
        st.cartopyInstalled = false →
        layer_grid st lon lat radius values delta extent lbl method cs
          = ([Event.stderrWrite "layer_grid require cartopy to be installed"],
             Except.error (PlotError.missingDependency st.notInstalledExc)))
    ∧ (∀ (st st' : ModuleState) (log : ℚ → ℚ) (indat : List (List ℚ))
        (title : Option String) (depths : List ℚ) (lmin lmax : Nat)
        (saveplot : Bool) (savepath : Option String) (lyrmin lyrmax : Nat),
        spectral_heterogeneity st log indat title depths lmin lmax saveplot savepath lyrmin lyrmax
          = spectral_heterogeneity st' log indat title depths lmin lmax saveplot savepath lyrmin lyrmax) := by
  constructor
  · intro st lon lat radius values delta extent lbl method cs hst
    simp [layer_grid, hst]
  · intro st st' log indat title depths lmin lmax saveplot savepath lyrmin lyrmax
    rfl

/-- C6 witness: a load-time failure state, evaluated on a concrete call. -/
theorem C6_optional_dependency_witness :
    layer_grid ⟨false, "No module named cartopy"⟩ [0] [0] 3482 [1] none
        [-180, 180, -90, 90] none "nearest" true
      = ([Event.stderrWrite "layer_grid require cartopy to be installed"],
         Except.error (PlotError.missingDependency "No module named cartopy")) :=
  C6_optional_dependency.1 ⟨false, "No module named cartopy"⟩ [0] [0] 3482 [1]
    none [-180, 180, -90, 90] none "nearest" true rfl

/-- C7: with cartopy available, an extent of length ≠ 4, or a four-element
extent with max-lon ≤ min-lon or max-lat ≤ min-lat, makes `layer_grid`
raise a ValidationError. -/
theorem C7_extent_validation (st : ModuleState) (lon lat : List ℚ)
    (radius : ℚ) (values : List ℚ) (delta : Option ℚ) (lbl : Option String)
    (method : String) (cs : Bool) (hst : st.cartopyInstalled = true) :
    (∀ extent : List ℚ, extent.length ≠ 4 →
        ∃ m, (layer_grid st lon lat radius values delta extent lbl method cs).2
          = Except.error (PlotError.validation m))
    ∧ (∀ a b c d : ℚ, b ≤ a ∨ d ≤ c →
        ∃ m, (layer_grid st lon lat radius values delta [a, b, c, d] lbl method cs).2
          = Except.error (PlotError.validation m)) := by
  have hc : ¬ st.cartopyInstalled = false := by simp [hst]
  constructor
  · intro extent hlen
    rcases extent with _ | ⟨e1, _ | ⟨e2, _ | ⟨e3, _ | ⟨e4, _ | ⟨e5, rest⟩⟩⟩⟩⟩
    · exact ⟨"extent must contain four values", by simp [layer_grid, hc]⟩
    · exact ⟨"extent must contain four values", by simp [layer_grid, hc]⟩
    · exact ⟨"extent must contain four values", by simp [layer_grid, hc]⟩
    · exact ⟨"extent must contain four values", by simp [layer_grid, hc]⟩
    · exact absurd rfl hlen
    · exact ⟨"extent must contain four values", by simp [layer_grid, hc]⟩
  · intro a b c d hor
    by_cases hba : b ≤ a
    · exact ⟨"maximum longitude must be more than minimum; have" ++
        s!"min = {a} and max = {b}", by simp [layer_grid, hc, hba]⟩
    · rcases hor with hor | hdc
      · exact absurd hor hba
      · exact ⟨"maximum latitude must be more than minimum; have" ++
          s!"min = {c} and max = {d}", by simp [layer_grid, hc, hba, hdc]⟩

/-- C7 witness: a three-element extent raises. -/
theorem C7_extent_validation_witness :
    ∃ m, (layer_grid stOk [] [] 0 [] none [0, 1, 0] none "nearest" true).2
      = Except.error (PlotError.validation m) :=
  (C7_extent_validation stOk [] [] 0 [] none none "nearest" true rfl).1
    [0, 1, 0] (by simp)

/-- C8: with cartopy available and a valid extent, a provided `delta ≤ 0`
makes `layer_grid` raise a ValidationError, and an omitted `delta` makes
the call behave exactly as if
`delta = max(maxlon - minlon, maxlat - minlat) / 200` had been passed. -/
theorem C8_delta (st : ModuleState) (lon lat : List ℚ) (radius : ℚ)
    (values : List ℚ) (lbl : Option String) (method : String) (cs : Bool)
    (a b c d : ℚ) (hst : st.cartopyInstalled = true)
    (hab : a < b) (hcd : c < d) :
    (∀ δ : ℚ, δ ≤ 0 →
        layer_grid st lon lat radius values (some δ) [a, b, c, d] lbl method cs
          = ([Event.createFigure],
             Except.error (PlotError.validation "delta must be more than 0")))
    ∧ layer_grid st lon lat radius values none [a, b, c, d] lbl method cs
        = layer_grid st lon lat radius values
            (some (max (b - a) (d - c) / 200)) [a, b, c, d] lbl method cs := by
  have hc : ¬ st.cartopyInstalled = false := by simp [hst]
  have hba := not_le.mpr hab
  have hdc := not_le.mpr hcd
  constructor
  · intro δ hδ
    simp [layer_grid, hc, hba, hdc, hδ]
  · have h1 : (0 : ℚ) < b - a := sub_pos.mpr hab
    have hmax : (0 : ℚ) < max (b - a) (d - c) := lt_of_lt_of_le h1 (le_max_left _ _)
    have hpos : (0 : ℚ) < max (b - a) (d - c) / 200 := div_pos hmax (by norm_num)
    simp [layer_grid, hc, hba, hdc, not_le.mpr hpos]

/-- C8 witness: `delta = -1` raises on a valid extent. -/
theorem C8_delta_witness :
    layer_grid stOk [] [] 0 [] (some (-1)) [0, 1, 0, 1] none "nearest" true
      = ([Event.createFigure],
         Except.error (PlotError.validation "delta must be more than 0")) :=
  (C8_delta stOk [] [] 0 [] none "nearest" true 0 1 0 1 rfl
    (by norm_num) (by norm_num)).1 (-1) (by norm_num)

/-- C9: with cartopy available, a valid extent and a positive delta, a
method other than "nearest" and "mean" makes `layer_grid` raise a
ValidationError whose message names the unsupported method string. -/
theorem C9_unsupported_method (st : ModuleState) (lon lat : List ℚ)
    (radius : ℚ) (values : List ℚ) (lbl : Option String) (cs : Bool)
    (a b c d δ : ℚ) (method : String) (hst : st.cartopyInstalled = true)
    (hab : a < b) (hcd : c < d) (hδ : 0 < δ)
    (hm1 : method ≠ "nearest") (hm2 : method ≠ "mean") :
    layer_grid st lon lat radius values (some δ) [a, b, c, d] lbl method cs
      = ([Event.createFigure, Event.computeGridCoords],
         Except.error (PlotError.validation
           ("unsupported method '" ++ method ++ "'"))) := by
  have hc : ¬ st.cartopyInstalled = false := by simp [hst]
  simp [layer_grid, layerGridCore, hc, not_le.mpr hab, not_le.mpr hcd,
    not_le.mpr hδ, hm1, hm2]

/-- C9 witness: method "cubic" raises, naming "cubic". -/
theorem C9_unsupported_method_witness :
    layer_grid stOk [] [] 0 [] (some 1) [0, 1, 0, 1] none "cubic" true
      = ([Event.createFigure, Event.computeGridCoords],
         Except.error (PlotError.validation "unsupported method 'cubic'")) :=
  C9_unsupported_method stOk [] [] 0 [] none true 0 1 0 1 1 "cubic" rfl
    (by norm_num) (by norm_num) (by norm_num) (by decide) (by decide)

/-- C10: `spectral_heterogeneity` validates none of its index arguments;
when the selected slice is empty (`lyrmax ≤ lyrmin` or `lmax < lmin`) the
`np.min` reduction over the empty logged array raises instead of
returning a figure/axis pair. -/
theorem C10_empty_slice (st : ModuleState) (lg : ℚ → ℚ)
    (indat : List (List ℚ)) (title : Option String) (depths : List ℚ)
    (lmin lmax : Nat) (saveplot : Bool) (savepath : Option String)
    (lyrmin lyrmax : Nat) (h : lyrmax ≤ lyrmin ∨ lmax < lmin) :
    spectral_heterogeneity st lg indat title depths lmin lmax saveplot savepath lyrmin lyrmax
      = Except.error (PlotError.validation
          "zero-size array to reduction operation minimum which has no identity") := by
  have hflat : ((sliceSpectrum indat lyrmin lyrmax lmin lmax).map (List.map lg)).flatten = [] := by
    rcases h with h | h
    · have h0 : lyrmax - lyrmin = 0 := Nat.sub_eq_zero_of_le h
      simp [sliceSpectrum, pySlice, h0]
    · apply List.flatten_eq_nil_iff.mpr
      intro l hl
      rcases List.mem_map.mp hl with ⟨r, hr, rfl⟩
      rcases List.mem_map.mp hr with ⟨row, hrow, rfl⟩
      have h0 : lmax + 1 - lmin = 0 := Nat.sub_eq_zero_of_le h
      simp [pySlice, h0]
  simp [spectral_heterogeneity, hflat]

/-- C10 witness: `lmin=5, lmax=2` on a non-empty spectrum raises. -/
theorem C10_empty_slice_witness :
    spectral_heterogeneity stOk id [[1]] none [0] 5 2 false none 0 1
      = Except.error (PlotError.validation
          "zero-size array to reduction operation minimum which has no identity") :=
  C10_empty_slice stOk id [[1]] none [0] 5 2 false none 0 1 (Or.inr (by norm_num))
